import Mathlib

/-!
Verification of `network-enum-toolkit`: a shallow embedding, in Lean 4, of the
two probe scripts of the repository —

* `scripts/snmp_enumrate/snmp_enum.py` : the SNMPv1 community probe
  (`try_pysnmp_enum` library path and `raw_udp_check` raw-UDP fallback), and
* `ldap_anonymous_check.py` : the LDAP anonymous-bind probe
  (`try_anonymous_bind` and the CLI flow of `main`).

Bytes are modelled as natural numbers below 256 (`List Nat`); Python's
`bytes([n])`, which raises `ValueError` for `n > 255`, is modelled by the
partial function `byteOf : Nat → Option Nat`.  Network interactions are
modelled by explicit environment records of oracle outcomes, so that each
probe becomes a pure function of its arguments and the environment.
-/

namespace SnmpEnum

/-- The fixed pre-encoded PDU tail of `raw_udp_check`, byte for byte the value
of `bytes.fromhex("a01c02040eb376f4020100020100300e300c06082b060102010105000500")`
(`suffix_hex` in the source). -/
def suffixHex : List Nat :=
  [0xa0, 0x1c, 0x02, 0x04, 0x0e, 0xb3, 0x76, 0xf4,
   0x02, 0x01, 0x00, 0x02, 0x01, 0x00, 0x30, 0x0e,
   0x30, 0x0c, 0x06, 0x08, 0x2b, 0x06, 0x01, 0x02,
   0x01, 0x01, 0x05, 0x00, 0x05, 0x00]

/-- Python `bytes([n])`: a single byte when `n < 256`, a `ValueError` (here
`none`) otherwise. -/
def byteOf (n : Nat) : Option Nat :=
  if n < 256 then some n else none

/-- The packet-construction part of `raw_udp_check` (source lines 70–82):

```
inner  = b'\x02\x01\x00' + b'\x04' + bytes([comm_len]) + community_bytes + rest
payload = b'\x30' + bytes([total_len]) + bytes(inner)
```

The community string enters as its UTF-8 byte sequence (`community_bytes`).
`none` models the uncaught `ValueError` of `bytes([n])` for `n > 255`. -/
def buildPacket (community : List Nat) : Option (List Nat) := do
  let commLenByte ← byteOf community.length
  let inner := [0x02, 0x01, 0x00] ++ [0x04, commLenByte] ++ community ++ suffixHex
  let totalLenByte ← byteOf inner.length
  pure ([0x30, totalLenByte] ++ inner)

/-- UTF-8 bytes of `"public"`, the default community string. -/
def publicBytes : List Nat := [112, 117, 98, 108, 105, 99]

/-- The byte range the source treats as printable: `32 <= ch < 127`, which is
also the character class `[ -~]` of the run-extracting regex. -/
def isPrintableByte (ch : Nat) : Bool :=
  decide (32 ≤ ch) && decide (ch < 127)

/-- One item of the join generator at source line 96
(`ch if 32 <= ch < 127 else '.' for ch in data`): `data` is `bytes`, so
iterating it yields ints, and a printable byte makes the conditional yield
the int `ch` itself; only the placeholder branch yields the one-character
string `"."`. -/
inductive JoinItem where
  | intItem (n : Nat)
  | strItem (c : Nat)

/-- The generator body of source line 96 for one byte. -/
def projItem (ch : Nat) : JoinItem :=
  if isPrintableByte ch then .intItem ch else .strItem 46

/-- Python `''.join(items)`: the concatenation when every item is a string,
a `TypeError` (`none`) when any item is an int. -/
def strJoin : List JoinItem → Option (List Nat)
  | [] => some []
  | .intItem _ :: _ => none
  | .strItem c :: rest => (strJoin rest).map (fun s => c :: s)

/-- `printable = ''.join(ch if 32 <= ch < 127 else '.' for ch in data)`
(source line 96).  Because iterating `bytes` yields ints, the join raises an
uncaught `TypeError` — `none`, the enclosing try having ended at line 94 —
whenever `data` holds at least one printable byte; on all-non-printable data
it returns the all-dots projection (`46` is the code point of `.`). -/
def printableProj (data : List Nat) : Option (List Nat) :=
  strJoin (data.map projItem)

/-- Maximal runs of printable bytes of a byte sequence, in order.  The
accumulator holds the current run reversed. -/
def runsAux : List Nat → List Nat → List (List Nat)
  | [], acc => if acc.isEmpty then [] else [acc.reverse]
  | ch :: rest, acc =>
    if isPrintableByte ch then runsAux rest (ch :: acc)
    else if acc.isEmpty then runsAux rest [] else acc.reverse :: runsAux rest []

/-- `runs = re.findall(r'[ -~]{4,}', printable)` (source line 97): the
greedy regex yields exactly the maximal printable runs of length at least 4. -/
def printableRuns (s : List Nat) : List (List Nat) :=
  (runsAux s []).filter (fun r => decide (4 ≤ r.length))

/-- Render a byte sequence as the string of its code points (the source works
on Python `str`; for the ASCII data involved this agrees byte for byte). -/
def strOfBytes (bs : List Nat) : String :=
  String.mk (bs.map Char.ofNat)

/-- Python's substring test `needle in hay` on byte sequences. -/
def bytesContains (hay needle : List Nat) : Bool :=
  (List.range (hay.length + 1)).any (fun i => needle.isPrefixOf (hay.drop i))

/-- Outcome of `sock.recvfrom(4096)` in `raw_udp_check`: received bytes, a
`socket.timeout`, or another socket exception. -/
inductive RecvOutcome where
  | data (d : List Nat)
  | timeout
  | sockError (e : String)

/-- `snippet = runs[0] if runs else printable[:200]` (source line 98), on a
successfully joined projection. -/
def snippetOf (printable : List Nat) : List Nat :=
  let runs := printableRuns printable
  if runs.isEmpty then printable.take 200 else runs.headD []

/-- Classification of received reply bytes, source lines 96–105.  `none`
models the uncaught `TypeError` of line 96, which escapes `raw_udp_check`
whenever the reply holds a printable byte; otherwise the snippet and the
three-way branch on `community.encode() in data`, `runs`, and the
fallthrough (lines 98–105) run on the joined projection. -/
def classifyReply (community data : List Nat) : Option (Bool × String) :=
  (printableProj data).map (fun printable =>
    let runs := printableRuns printable
    let snippet := snippetOf printable
    if bytesContains data community then
      (true, "response contains community \x27" ++ strOfBytes community ++
        "\x27. Printable snippet: " ++ strOfBytes snippet)
    else if !runs.isEmpty then
      (true, "response received (no community string visible): " ++ strOfBytes snippet)
    else
      (false, "received " ++ toString data.length ++ " bytes but no printable content"))

/-- The receive-and-classify part of `raw_udp_check` (source lines 88–105):
a timeout and a socket error return their fixed failure messages before any
classification; received data goes to `classifyReply`, whose `none` is the
uncaught `TypeError` of line 96 escaping the function. -/
def rawUdpCheck (community : List Nat) (recv : RecvOutcome) :
    Option (Bool × String) :=
  match recv with
  | .timeout => some (false, "no response (timeout)")
  | .sockError e => some (false, "socket error: " ++ e)
  | .data d => classifyReply community d

/-! ### The library-mediated probe `try_pysnmp_enum` (source lines 17–64) -/

/-- The fixed MIB-II OID table (source lines 27–34), in dictionary order. -/
def oidsList : List (String × String) :=
  [("sysDescr", "1.3.6.1.2.1.1.1.0"),
   ("sysObjectID", "1.3.6.1.2.1.1.2.0"),
   ("sysUpTime", "1.3.6.1.2.1.1.3.0"),
   ("sysContact", "1.3.6.1.2.1.1.4.0"),
   ("sysName", "1.3.6.1.2.1.1.5.0"),
   ("sysLocation", "1.3.6.1.2.1.1.6.0")]

/-- Per-OID outcome of the `getCmd` exchange: an error indication, a nonzero
error status, an exception anywhere in the try block, or the list of
`str(v.prettyPrint())` values of the returned variable bindings. -/
inductive GetOutcome where
  | errorIndication
  | errorStatus
  | exc
  | varBinds (vs : List String)

/-- Whether a `getCmd` outcome yields at least one value: a varbind list with
at least one binding (the only case in which the loop body stores a result
and sets `success`). -/
def okNonempty : GetOutcome → Bool
  | .varBinds (_ :: _) => true
  | _ => false

/-- Python `k in d` on an association list standing for a dict. -/
def hasKey {β : Type} (d : List (String × β)) (k : String) : Bool :=
  d.any (fun p => p.1 == k)

/-- Python `d[k] = v` on an association list: overwrite in place when the key
exists, append otherwise. -/
def dictSet {β : Type} (d : List (String × β)) (k : String) (v : β) :
    List (String × β) :=
  if hasKey d k then d.map (fun p => if p.1 == k then (k, v) else p)
  else d ++ [(k, v)]

/-- Loop state of `try_pysnmp_enum`: the `results` dict, the `success` flag,
and (for the once-per-OID property) the trace of OIDs handed to `getCmd`. -/
structure EnumState where
  results : List (String × String)
  success : Bool
  trace : List String
deriving Repr, DecidableEq

/-- One iteration of the loop (source lines 39–58): `getCmd` is issued for the
OID; error indication, error status and exceptions `continue`; otherwise
`results[name] = str(v.prettyPrint()); success = True` for each varbind. -/
def enumStep (env : String → GetOutcome) (st : EnumState) (nameOid : String × String) :
    EnumState :=
  let st := { st with trace := st.trace ++ [nameOid.2] }
  match env nameOid.2 with
  | .errorIndication => st
  | .errorStatus => st
  | .exc => st
  | .varBinds vs =>
      vs.foldl (fun s v => { s with results := dictSet s.results nameOid.1 v,
                                    success := true }) st

/-- The whole OID loop of `try_pysnmp_enum`. -/
def pysnmpLoop (env : String → GetOutcome) : EnumState :=
  oidsList.foldl (enumStep env) ⟨[], false, []⟩

/-- `try_pysnmp_enum` (source lines 17–64): `avail` is whether the
`pysnmp.hlapi` import succeeds; the return value mirrors the Python pair
(`None`/`True`/`False`, detail string). -/
def tryPysnmpEnum (avail : Bool) (env : String → GetOutcome) : Option Bool × String :=
  if !avail then (none, "pysnmp not installed")
  else
    let st := pysnmpLoop env
    if st.success then
      (some true, "SNMPv1 enumeration succeeded:\n" ++
        String.intercalate "\n" (st.results.map (fun p => p.1 ++ ": " ++ p.2)))
    else
      (some false, "no valid responses for standard OIDs")

/-- Modelled from the spec wording of the detail claim: a bare newline-joined
`name: value` listing of the collected OIDs, with no leading header line.
Used only to compare the spec sentence with what the code builds. -/
def specBareListing (results : List (String × String)) : String :=
  String.intercalate "\n" (results.map (fun p => p.1 ++ ": " ++ p.2))

/-! ### A short-form BER reader, to state what the fixed tail encodes -/

/-- Read one BER tag-length-value triple with a single-byte (short form)
length byte: `(tag, content, remainder)`. -/
def readTLV (bs : List Nat) : Option (Nat × List Nat × List Nat) :=
  match bs with
  | tag :: len :: rest =>
      if len < 128 ∧ len ≤ rest.length then some (tag, rest.take len, rest.drop len)
      else none
  | _ => none

/-- Decode BER base-128 OID sub-identifiers (all bytes after the first),
`acc` carrying the bits of an in-progress multi-byte sub-identifier. -/
def decodeSubids : List Nat → Nat → List Nat
  | [], _ => []
  | b :: rest, acc =>
      if b < 128 then (acc * 128 + b) :: decodeSubids rest 0
      else decodeSubids rest (acc * 128 + (b - 128))

/-- Decode the content bytes of a BER OBJECT IDENTIFIER into its dotted
components (first byte packs the first two components as `40*x + y`). -/
def decodeOid (bs : List Nat) : List Nat :=
  match bs with
  | [] => []
  | b :: rest => b / 40 :: b % 40 :: decodeSubids rest 0

/-- The decoded shape of a GetRequest PDU with a single variable binding. -/
structure GetRequestPdu where
  requestId : List Nat
  errorStatus : List Nat
  errorIndex : List Nat
  oid : List Nat
  valueTag : Nat
  valueContent : List Nat
deriving Repr, DecidableEq

/-- Parse a byte sequence as a GetRequest PDU: context tag `0xA0` wrapping
INTEGER request-id, INTEGER error-status, INTEGER error-index, and a SEQUENCE
holding exactly one variable binding — a SEQUENCE of an OID and one value. -/
def parsePduTail (bs : List Nat) : Option GetRequestPdu := do
  let (t0, pdu, r0) ← readTLV bs
  let (t1, reqId, r1) ← readTLV pdu
  let (t2, errSt, r2) ← readTLV r1
  let (t3, errIx, r3) ← readTLV r2
  let (t4, vbl, r4) ← readTLV r3
  let (t5, vb, r5) ← readTLV vbl
  let (t6, oidBytes, r6) ← readTLV vb
  let (t7, valBytes, r7) ← readTLV r6
  if t0 = 0xa0 ∧ r0 = [] ∧ t1 = 2 ∧ t2 = 2 ∧ t3 = 2 ∧ t4 = 0x30 ∧ r4 = [] ∧
     t5 = 0x30 ∧ r5 = [] ∧ t6 = 6 ∧ r7 = [] then
    pure ⟨reqId, errSt, errIx, decodeOid oidBytes, t7, valBytes⟩
  else none

end SnmpEnum

namespace LdapCheck

/-- A Python-ish structured value, for the pieces of `result["metadata"]`
whose shape matters to the probe (dicts, lists, strings, booleans). -/
inductive Val where
  | vstr (s : String)
  | vdict (d : List (String × Val))
  | vlist (l : List Val)
  | vbool (b : Bool)
deriving Repr

/-- Python truthiness for the values above (`if naming:` and the like). -/
def truthy : Val → Bool
  | .vstr s => !s.isEmpty
  | .vdict d => !d.isEmpty
  | .vlist l => !l.isEmpty
  | .vbool b => b

/-- An oracle outcome: the underlying call raised (`exc` carries `str(e)`),
or returned a value. -/
inductive ExcOr (α : Type) where
  | exc (e : String)
  | ok (a : α)
deriving Repr, DecidableEq

/-- Python `v.get(key, default)`: key lookup on a dict, an `AttributeError`
on any non-dict value (the probe can reach this when `rootDSE` was stored as
`str(entry)`). -/
def valGet (v : Val) (key : String) (dflt : Val) : ExcOr Val :=
  match v with
  | .vdict d => .ok ((d.lookup key).getD dflt)
  | _ => .exc "AttributeError"

/-- Python `v[0]`: the head of a nonempty list, the first character of a
nonempty string, an exception otherwise. -/
def indexZero (v : Val) : ExcOr Val :=
  match v with
  | .vlist (x :: _) => .ok x
  | .vstr s =>
      match s.data with
      | c :: _ => .ok (.vstr (String.mk [c]))
      | [] => .exc "IndexError"
  | _ => .exc "TypeError"

/-- Environment of oracle outcomes for one run of `try_anonymous_bind`: each
field is what the corresponding library or socket call would do, in program
order.  Durations are abstract naturals (their values never matter to the
claims, only which timing keys get recorded). -/
structure Env where
  /-- `socket.create_connection((host, port), timeout=timeout)`: the measured
  duration on success, the exception text on failure. -/
  tcpConnect : ExcOr Nat
  /-- `Server(host, port=port, use_ssl=use_ldaps, get_info=ALL, ...)`. -/
  serverCreate : ExcOr Unit
  /-- `Connection(server, authentication=ANONYMOUS, ...)`. -/
  connCreate : ExcOr Unit
  /-- `conn.open()`. -/
  connOpen : ExcOr Bool
  /-- `conn.start_tls()`. -/
  startTlsCall : ExcOr Bool
  /-- `conn.last_error` at the point StartTLS fails. -/
  lastError : String
  /-- `conn.bind()`. -/
  bindCall : ExcOr Bool
  /-- `str(conn.result)` after a refused bind. -/
  bindResultStr : String
  /-- truthiness of `server.info` (or an exception from accessing it). -/
  serverInfoAccess : ExcOr Bool
  /-- `server.info.to_dict()`. -/
  serverInfoToDict : ExcOr Val
  /-- `str(server.schema)` for the fallback summary. -/
  schemaStr : String
  /-- `str(server)` for the fallback summary. -/
  serverStr : String
  /-- `conn.search('', '(objectClass=*)', BASE, attributes=[...])`. -/
  rootSearch : ExcOr Bool
  /-- `conn.entries[0]` — `ok` when an entry exists, `exc` the `IndexError`. -/
  entriesHead : ExcOr Unit
  /-- `entry.entry_attributes_as_dict`. -/
  entryAttrsDict : ExcOr Val
  /-- `str(entry)` for the fallback. -/
  entryStr : String
  /-- `conn.result` after a root-DSE search returning `False`. -/
  searchResult : Val
  /-- `conn.search(base, '(objectClass=*)', BASE, attributes=['objectClass'],
  size_limit=1)` against the first naming context. -/
  sampleSearch : ExcOr Bool
  /-- duration recorded as `bind_s`. -/
  bindDur : Nat
  /-- duration recorded as `total_s`. -/
  totalDur : Nat

/-- The result dict built by `try_anonymous_bind` (source lines 29–38). -/
structure LdapResult where
  host : String
  port : Nat
  use_ldaps : Bool
  starttls : Bool
  success : Bool
  error : Option String
  metadata : List (String × Val)
  timings : List (String × Nat)
deriving Repr

/-- The `server_info` harvest sub-step (source lines 88–103): guarded on its
own, records `server_info` or `server_info_error`. -/
def serverInfoStep (env : Env) : String × Val :=
  match env.serverInfoAccess with
  | .exc e => ("server_info_error", .vstr e)
  | .ok infoTruthy =>
      if infoTruthy then
        match env.serverInfoToDict with
        | .ok d => ("server_info", d)
        | .exc _ => ("server_info",
            .vdict [("schema", .vstr env.schemaStr), ("server_name", .vstr env.serverStr)])
      else ("server_info", .vdict [])

/-- The root-DSE harvest sub-step (source lines 105–119): a search that
returns entries stores `rootDSE` (the attribute dict, or `str(entry)` when
the dict conversion raises); a search returning `False` stores
`rootDSE_search_result`; an exception anywhere in the step — including the
`conn.entries[0]` lookup — stores only `rootDSE_error`. -/
def rootDseStep (env : Env) : String × Val :=
  match env.rootSearch with
  | .exc e => ("rootDSE_error", .vstr e)
  | .ok true =>
      match env.entriesHead with
      | .exc e => ("rootDSE_error", .vstr e)
      | .ok _ =>
          match env.entryAttrsDict with
          | .ok d => ("rootDSE", d)
          | .exc _ => ("rootDSE", .vstr env.entryStr)
  | .ok false => ("rootDSE_search_result", env.searchResult)

/-- The sample-base sub-step (source lines 121–136): reads `namingContexts`
out of the metadata gathered so far and, when nonempty, probes the first
naming context. -/
def sampleStep (env : Env) (md : List (String × Val)) : List (String × Val) :=
  let rootDse := (md.lookup "rootDSE").getD (.vdict [])
  match valGet rootDse "namingContexts" (.vlist []) with
  | .exc e => [("sample_base_error", .vstr e)]
  | .ok naming =>
      if truthy naming then
        match indexZero naming with
        | .exc e => [("sample_base_error", .vstr e)]
        | .ok base =>
            match env.sampleSearch with
            | .exc e => [("sample_base_error", .vstr e)]
            | .ok true => [("sample_base_found", .vbool true), ("sample_base", base)]
            | .ok false => [("sample_base_found", .vbool false)]
      else [("namingContexts_missing", .vbool true)]

/-- The StartTLS stage of the big `try` (source lines 72–77): nothing when
StartTLS was not requested; otherwise the contradictory-options `ValueError`,
the `start_tls()` exception, or the `LDAPExceptionError` on a `False`
return. -/
def startTlsStage (useLdaps starttls : Bool) (env : Env) : Except String Unit :=
  if starttls then
    if useLdaps then
      .error "Cannot use StartTLS when using LDAPS (use one or the other)."
    else
      match env.startTlsCall with
      | .exc e => .error e
      | .ok tls =>
          if !tls then .error ("StartTLS failed: " ++ env.lastError) else .ok ()
  else .ok ()

/-- The body of the big `try` of `try_anonymous_bind` (source lines 61–139),
from the `Connection(...)` construction to the bind and metadata harvest.
`.error` models an exception escaping to the outer `except` with message
`str(e)`; the normal return is `(success, error, metadata)`. -/
def ldapBody (useLdaps starttls : Bool) (env : Env) :
    Except String (Bool × Option String × List (String × Val)) :=
  match env.connCreate with
  | .exc e => .error e
  | .ok _ =>
    match env.connOpen with
    | .exc e => .error e
    | .ok opened =>
      if !opened then .error "Failed to open connection to server"
      else
        match startTlsStage useLdaps starttls env with
        | .error e => .error e
        | .ok _ =>
          match env.bindCall with
          | .exc e => .error e
          | .ok bound =>
            if !bound then
              .ok (false, some ("Bind failed: " ++ env.bindResultStr), [])
            else
              let md1 := [serverInfoStep env]
              let md2 := md1 ++ [rootDseStep env]
              .ok (true, none, md2 ++ sampleStep env md2)

/-- `try_anonymous_bind(host, port, use_ldaps, starttls, timeout)` (source
lines 28–151) as a function of the oracle environment.  The four return
paths: TCP failure, `Server(...)` failure, an exception escaping the big
`try` (caught as "Exception during LDAP operations"), and the normal path
(refused bind or success) which alone records `bind_s`.  The `finally`
block records `total_s` on every path that reaches it. -/
def tryAnonymousBind (host : String) (port : Nat) (useLdaps starttls : Bool)
    (env : Env) : LdapResult :=
  let base : LdapResult :=
    { host := host, port := port, use_ldaps := useLdaps, starttls := starttls,
      success := false, error := none, metadata := [], timings := [] }
  match env.tcpConnect with
  | .exc e =>
      { base with error := some ("TCP connection failed: " ++ e),
                  timings := [("total_s", env.totalDur)] }
  | .ok tcpDur =>
      let timings0 := [("tcp_connect_s", tcpDur)]
      match env.serverCreate with
      | .exc e =>
          { base with error := some ("Server object creation failed: " ++ e),
                      timings := timings0 ++ [("total_s", env.totalDur)] }
      | .ok _ =>
          match ldapBody useLdaps starttls env with
          | .ok (succ, err, md) =>
              { base with success := succ, error := err, metadata := md,
                          timings := timings0 ++
                            [("bind_s", env.bindDur), ("total_s", env.totalDur)] }
          | .error e =>
              { base with error := some ("Exception during LDAP operations: " ++ e),
                          timings := timings0 ++ [("total_s", env.totalDur)] }

/-! ### The CLI flow of `main` (source lines 153–207) -/

/-- Python `s.startswith(p)`, via the underlying character lists. -/
def strStartsWith (s p : String) : Bool :=
  p.data.isPrefixOf s.data

/-- First index at which `pat` occurs in `hay`, if any. -/
def findSub (pat hay : List Char) : Option Nat :=
  (List.range (hay.length + 1)).find? (fun i => pat.isPrefixOf (hay.drop i))

/-- Python `s.split(sep, 1)[1]` when `sep` occurs in `s`, else `s` itself. -/
def afterFirst (sep s : String) : String :=
  match findSub sep.data s.data with
  | some i => String.mk (s.data.drop (i + sep.data.length))
  | none => s

/-- `normalize_host` (source lines 21–26): strip a leading `ldap://` or
`ldaps://` scheme, keeping everything after the first `://`. -/
def normalizeHost (h : String) : String :=
  if strStartsWith h "ldap://" || strStartsWith h "ldaps://" then afterFirst "://" h
  else h

/-- Python `s.isdigit()` for the ASCII strings at hand: nonempty and all
digits. -/
def isdigitStr (s : String) : Bool :=
  !s.data.isEmpty && s.data.all Char.isDigit

/-- Decimal value of a digit string (Python `int(s)` on an `isdigit` string). -/
def digitsToNat (s : String) : Nat :=
  s.data.foldl (fun acc c => acc * 10 + (c.toNat - 48)) 0

/-- The `host:port` shorthand split and port defaulting of `main` (source
lines 164–178): when the normalized host has exactly one colon, does not
start with `[`, and the part after the colon is numeric, that part overrides
the port argument; a still-absent port defaults to 636 for LDAPS, 389
otherwise. -/
def parseHostPort (hostArg : String) (portArg : Option Nat) (useLdaps : Bool) :
    String × Nat :=
  let raw := normalizeHost hostArg
  let (targetHost, explicitPort) :=
    if decide ((raw.data.filter (fun c => c == ':')).length = 1) &&
       !(strStartsWith raw "[") then
      match findSub [':'] raw.data with
      | some i =>
          let before := String.mk (raw.data.take i)
          let after := String.mk (raw.data.drop (i + 1))
          if isdigitStr after then (before, some (digitsToNat after))
          else (raw, portArg)
      | none => (raw, portArg)
    else (raw, portArg)
  let port := match explicitPort with
    | some p => p
    | none => if useLdaps then 636 else 389
  (targetHost, port)

/-- The parsed CLI arguments that reach the probe decision in `main`. -/
structure Args where
  host : String
  port : Option Nat
  useLdaps : Bool
  starttls : Bool
  json : Bool

/-- What `main` does once arguments are parsed: print the configuration-error
JSON and return, or run the probe and render its result. -/
inductive MainOutput where
  | configError (v : Val)
  | probeResult (r : LdapResult)

/-- The `main` flow up to and including the probe call (source lines
164–184): host/port normalization, then the mutual-exclusion guard of line
180 — which prints `{"error": "Cannot use both --starttls and --use-ldaps"}`
and returns before `try_anonymous_bind` is ever called — and otherwise the
probe invocation. -/
def mainFlow (args : Args) (env : Env) : MainOutput :=
  let hp := parseHostPort args.host args.port args.useLdaps
  if args.starttls && args.useLdaps then
    .configError (.vdict [("error", .vstr "Cannot use both --starttls and --use-ldaps")])
  else
    .probeResult (tryAnonymousBind hp.1 hp.2 args.useLdaps args.starttls env)

/-- A concrete all-cooperative oracle environment, used as a fixture for
witnesses and counterexamples (individual fields overridden per scenario). -/
def sampleEnv : Env :=
  { tcpConnect := .ok 1
    serverCreate := .ok ()
    connCreate := .ok ()
    connOpen := .ok true
    startTlsCall := .ok true
    lastError := ""
    bindCall := .ok true
    bindResultStr := ""
    serverInfoAccess := .ok false
    serverInfoToDict := .ok (.vdict [])
    schemaStr := ""
    serverStr := ""
    rootSearch := .ok true
    entriesHead := .ok ()
    entryAttrsDict := .ok (.vdict [("namingContexts", .vlist [.vstr "dc=example,dc=com"])])
    entryStr := ""
    searchResult := .vdict []
    sampleSearch := .ok true
    bindDur := 2
    totalDur := 3 }

end LdapCheck

namespace SnmpEnum

/-- Modelled from the spec: the fixed tail of the documented wire layout
`A0 1C 02 04 0E B3 76 F4 02 01 00 02 01 00 30 0E 30 0C 06 08 2B 06 01 02 01
01 05 00 05 00`, transcribed byte for byte from the spec's hex listing. -/
def specWireTail : List Nat :=
  [0xa0, 0x1c, 0x02, 0x04, 0x0e, 0xb3, 0x76, 0xf4,
   0x02, 0x01, 0x00, 0x02, 0x01, 0x00, 0x30, 0x0e,
   0x30, 0x0c, 0x06, 0x08, 0x2b, 0x06, 0x01, 0x02,
   0x01, 0x01, 0x05, 0x00, 0x05, 0x00]

end SnmpEnum

namespace SnmpEnum

/-- Closed form of `buildPacket` whenever both `bytes([...])` calls succeed,
i.e. whenever the community has at most `220 = 255 - 35` bytes. -/
theorem buildPacket_eq (community : List Nat) (h : community.length ≤ 220) :
    buildPacket community =
      some ([0x30, community.length + 35, 0x02, 0x01, 0x00, 0x04, community.length] ++
        community ++ suffixHex) := by
  have h1 : community.length < 256 := by omega
  have h2 : ([0x02, 0x01, 0x00] ++ [0x04, community.length] ++ community ++
      suffixHex).length < 256 := by
    simp [suffixHex]
    omega
  simp only [buildPacket, byteOf, if_pos h1, if_pos h2, Option.bind_eq_bind,
    Option.some_bind, Option.pure_def]
  simp [suffixHex]

/-- The length of `buildPacket`'s fixed tail is 30, not 28. -/
theorem suffixHex_length : suffixHex.length = 30 := by decide

end SnmpEnum

/-- C1 counterexample: for the community `"public"` (N = 6) the packet built
by `raw_udp_check` has outer SEQUENCE length byte 41, while the claim's
`3 + 2 + N + 28` predicts 39 — the fixed PDU tail is 30 bytes, not 28. -/
theorem C1_counterexample :
    (SnmpEnum.buildPacket SnmpEnum.publicBytes).bind (fun p => p.get? 1) =
      some 41 ∧
    ¬ (SnmpEnum.buildPacket SnmpEnum.publicBytes).bind (fun p => p.get? 1) =
      some (3 + 2 + SnmpEnum.publicBytes.length + 28) := by
  decide

/-- C1 (amended): for every community string of length `N < 128`, the packet
built by `raw_udp_check` has an outer SEQUENCE length byte equal to
`3 + 2 + N + 30` (version field 3 bytes, community header 2 bytes, N
community bytes, fixed 30-byte PDU tail), and the community OCTET-STRING
length byte equals N exactly. -/
theorem C1_amended (community : List Nat) (h : community.length < 128) :
    ∃ p, SnmpEnum.buildPacket community = some p ∧
      p.get? 1 = some (3 + 2 + community.length + 30) ∧
      p.get? 6 = some community.length ∧
      SnmpEnum.suffixHex.length = 30 := by
  refine ⟨_, SnmpEnum.buildPacket_eq community (by omega), ?_, ?_, by decide⟩
  · simp
    omega
  · simp

/-- C1 witness: the amended claim at the concrete community `"public"`. -/
theorem C1_witness :
    SnmpEnum.publicBytes.length < 128 ∧
    ∃ p, SnmpEnum.buildPacket SnmpEnum.publicBytes = some p ∧
      p.get? 1 = some (3 + 2 + SnmpEnum.publicBytes.length + 30) ∧
      p.get? 6 = some SnmpEnum.publicBytes.length ∧
      SnmpEnum.suffixHex.length = 30 :=
  ⟨by decide, C1_amended SnmpEnum.publicBytes (by decide)⟩

/-- C5: for every community string of length `N < 128`, the bytes sent by
`raw_udp_check` are exactly `30 LL 02 01 00 04 CL <community bytes>` followed
by the spec's fixed tail `A0 1C 02 04 0E B3 76 F4 02 01 00 02 01 00 30 0E 30
0C 06 08 2B 06 01 02 01 01 05 00 05 00`, where `CL` is the community length
and `LL` is the byte count of everything after the `LL` byte. -/
theorem C5_wire_layout (community : List Nat) (h : community.length < 128) :
    SnmpEnum.buildPacket community =
      some (0x30 ::
        ([0x02, 0x01, 0x00, 0x04, community.length] ++ community ++
          SnmpEnum.specWireTail).length ::
        ([0x02, 0x01, 0x00, 0x04, community.length] ++ community ++
          SnmpEnum.specWireTail)) := by
  rw [SnmpEnum.buildPacket_eq community (by omega)]
  have htail : SnmpEnum.specWireTail = SnmpEnum.suffixHex := by decide
  rw [htail]
  simp [SnmpEnum.suffixHex]

/-- C5 witness: the wire layout at the concrete community `"public"`. -/
theorem C5_witness :
    SnmpEnum.publicBytes.length < 128 ∧
    SnmpEnum.buildPacket SnmpEnum.publicBytes =
      some (0x30 ::
        ([0x02, 0x01, 0x00, 0x04, SnmpEnum.publicBytes.length] ++
          SnmpEnum.publicBytes ++ SnmpEnum.specWireTail).length ::
        ([0x02, 0x01, 0x00, 0x04, SnmpEnum.publicBytes.length] ++
          SnmpEnum.publicBytes ++ SnmpEnum.specWireTail)) :=
  ⟨by decide, C5_wire_layout SnmpEnum.publicBytes (by decide)⟩

set_option maxRecDepth 4000 in
/-- C9: at the 128-byte community (128 copies of byte 97), the encoder does
not signal the single-byte-length limitation: it silently returns a packet —
which `raw_udp_check` then sends — whose community length byte is `128 =
0x80`, not a valid single-byte BER length (`128 < 128` fails), and whose
outer length byte is `163 ≥ 128` as well. -/
theorem C9_code_behavior :
    (SnmpEnum.buildPacket (List.replicate 128 97)).isSome = true ∧
    (SnmpEnum.buildPacket (List.replicate 128 97)).bind (fun p => p.get? 6) =
      some 128 ∧
    (SnmpEnum.buildPacket (List.replicate 128 97)).bind (fun p => p.get? 1) =
      some 163 ∧
    ¬ 128 < 128 := by
  decide

/-- C4 counterexample: the fixed PDU tail of `raw_udp_check` parses as a
GetRequest whose single variable binding carries OID 1.3.6.1.2.1.1.5.0
(sysName), not the sysDescr OID 1.3.6.1.2.1.1.1.0 stated by the claim. -/
theorem C4_counterexample :
    (SnmpEnum.parsePduTail SnmpEnum.suffixHex).map SnmpEnum.GetRequestPdu.oid =
      some [1, 3, 6, 1, 2, 1, 1, 5, 0] ∧
    ¬ (SnmpEnum.parsePduTail SnmpEnum.suffixHex).map SnmpEnum.GetRequestPdu.oid =
      some [1, 3, 6, 1, 2, 1, 1, 1, 0] := by
  decide

/-- C4 (amended): for every community string, the packet built by
`raw_udp_check` ends with the fixed PDU tail, and that tail encodes a
GetRequest (tag `0xA0`) whose single variable binding carries the sysName OID
1.3.6.1.2.1.1.5.0 with a NULL value (tag 5, empty content), request-id bytes
`0E B3 76 F4` and zero error-status and error-index. -/
theorem C4_amended (community : List Nat) (p : List Nat)
    (h : SnmpEnum.buildPacket community = some p) :
    (∃ pre, p = pre ++ SnmpEnum.suffixHex) ∧
    SnmpEnum.parsePduTail SnmpEnum.suffixHex =
      some ⟨[0x0e, 0xb3, 0x76, 0xf4], [0], [0], [1, 3, 6, 1, 2, 1, 1, 5, 0],
        5, []⟩ := by
  refine ⟨?_, by decide⟩
  by_cases h1 : community.length < 256
  · by_cases h2 : community.length ≤ 220
    · rw [SnmpEnum.buildPacket_eq community h2] at h
      exact ⟨[0x30, community.length + 35, 0x02, 0x01, 0x00, 0x04,
        community.length] ++ community, by simpa using h.symm⟩
    · exfalso
      have h3 : ([0x02, 0x01, 0x00] ++ [0x04, community.length] ++ community ++
          SnmpEnum.suffixHex).length ≥ 256 := by
        simp [SnmpEnum.suffixHex]
        omega
      simp only [SnmpEnum.buildPacket, SnmpEnum.byteOf, if_pos h1,
        Option.bind_eq_bind, Option.some_bind] at h
      rw [if_neg (by omega)] at h
      simp at h
  · exfalso
    simp only [SnmpEnum.buildPacket, SnmpEnum.byteOf, if_neg h1,
      Option.bind_eq_bind, Option.none_bind] at h
    exact Option.noConfusion h

namespace SnmpEnum

/-- Line 96 raises exactly when some reply byte is printable: the join
returns the projection iff every byte took the placeholder branch. -/
theorem printableProj_eq_none (data : List Nat) :
    printableProj data = none ↔ data.any isPrintableByte = true := by
  induction data with
  | nil => simp [printableProj, strJoin]
  | cons ch rest ih =>
      by_cases hch : isPrintableByte ch = true
      · simp [printableProj, strJoin, projItem, hch]
      · unfold printableProj at ih ⊢
        rw [List.map_cons,
          show projItem ch = .strItem 46 by simp [projItem, hch],
          List.any_cons]
        simp only [strJoin, Option.map_eq_none', ih]
        simp [hch]

/-- `raw_udp_check` crashes on a received reply iff the reply holds at least
one printable byte — in particular on every reply echoing a nonempty
printable community string. -/
theorem rawUdpCheck_none_iff (community data : List Nat) :
    rawUdpCheck community (.data data) = none ↔
      data.any isPrintableByte = true := by
  unfold rawUdpCheck classifyReply
  rw [Option.map_eq_none']
  exact printableProj_eq_none data

end SnmpEnum

/-- C6: the claimed four-way classification is the spec's intent but not the
code's behaviour.  At a reply echoing the community — `0\x04public` for
community `public`, the claim's strong-positive case — line 96's `str.join`
receives the int of the first printable byte (iterating `bytes` yields ints)
and raises an uncaught `TypeError`, so `raw_udp_check` crashes (`none`)
instead of reporting a success.  Only replies without printable bytes reach
the branch, classifying by the all-dots projection, and the timeout still
yields the distinct no-response failure. -/
theorem C6_code_behavior :
    SnmpEnum.bytesContains ([48, 4] ++ SnmpEnum.publicBytes)
      SnmpEnum.publicBytes = true ∧
    SnmpEnum.rawUdpCheck SnmpEnum.publicBytes
      (.data ([48, 4] ++ SnmpEnum.publicBytes)) = none ∧
    SnmpEnum.rawUdpCheck SnmpEnum.publicBytes (.data [1, 2, 3, 0]) =
      some (true, "response received (no community string visible): ....") ∧
    SnmpEnum.rawUdpCheck SnmpEnum.publicBytes (.data [1, 2]) =
      some (false, "received 2 bytes but no printable content") ∧
    SnmpEnum.rawUdpCheck SnmpEnum.publicBytes .timeout =
      some (false, "no response (timeout)") := by
  decide

namespace SnmpEnum

/-- Pointwise-equal predicates give equal `List.any`. -/
theorem anyCongr {α : Type} (l : List α) (p q : α → Bool)
    (h : ∀ a ∈ l, p a = q a) : l.any p = l.any q := by
  induction l with
  | nil => rfl
  | cons a as ih =>
      simp only [List.any_cons, h a (List.mem_cons_self a as),
        ih (fun b hb => h b (List.mem_cons_of_mem a hb))]

/-- `dictSet` leaves every key present and adds (at most) the assigned one. -/
theorem hasKey_dictSet {β : Type} (d : List (String × β)) (name k : String) (v : β) :
    hasKey (dictSet d name v) k = (hasKey d k || name == k) := by
  unfold dictSet
  by_cases h : hasKey d name = true
  · rw [if_pos h]
    by_cases hk : name = k
    · subst hk
      rw [h, Bool.true_or]
      unfold hasKey at h ⊢
      rw [List.any_eq_true] at h
      obtain ⟨p, hp, hpk⟩ := h
      rw [List.any_eq_true]
      refine ⟨(name, v), ?_, by simp⟩
      have hfp : (fun q : String × β => if q.1 == name then (name, v) else q) p =
          (name, v) := by
        show (if p.1 == name then (name, v) else p) = (name, v)
        rw [if_pos hpk]
      have hmem := List.mem_map_of_mem
        (fun q : String × β => if q.1 == name then (name, v) else q) hp
      rw [hfp] at hmem
      exact hmem
    · have hbk : (name == k) = false := by
        simp [hk]
      rw [hbk, Bool.or_false]
      unfold hasKey
      rw [List.any_map]
      refine anyCongr d _ _ ?_
      intro p _
      simp only [Function.comp_apply]
      by_cases hp : (p.1 == name) = true
      · rw [if_pos hp]
        have hpn : p.1 = name := by simpa using hp
        simp [hpn, hbk]
      · rw [if_neg hp]
  · rw [if_neg h]
    unfold hasKey
    rw [List.any_append]
    simp [List.any_cons]

/-- The inner varbind fold (the `for o, v in varBinds` loop) never touches
the trace. -/
theorem innerFold_trace (vs : List String) (name : String) (st : EnumState) :
    (vs.foldl
      (fun s v => { s with results := dictSet s.results name v, success := true })
      st).trace = st.trace := by
  induction vs generalizing st with
  | nil => rfl
  | cons v rest ih => rw [List.foldl_cons, ih]

/-- The inner varbind fold sets `success` exactly when a binding exists. -/
theorem innerFold_success (vs : List String) (name : String) (st : EnumState) :
    (vs.foldl
      (fun s v => { s with results := dictSet s.results name v, success := true })
      st).success = (st.success || !vs.isEmpty) := by
  induction vs generalizing st with
  | nil => simp
  | cons v rest ih =>
      rw [List.foldl_cons, ih]
      simp

/-- The inner varbind fold records `name` exactly when a binding exists. -/
theorem innerFold_hasKey (vs : List String) (name k : String) (st : EnumState) :
    hasKey (vs.foldl
      (fun s v => { s with results := dictSet s.results name v, success := true })
      st).results k =
      (hasKey st.results k || (!vs.isEmpty && name == k)) := by
  induction vs generalizing st with
  | nil => simp
  | cons v rest ih =>
      rw [List.foldl_cons, ih]
      simp only [hasKey_dictSet]
      cases hnk : (name == k) <;> cases hasKey st.results k <;> simp

/-- One loop iteration appends exactly its OID to the trace. -/
theorem enumStep_trace (env : String → GetOutcome) (st : EnumState)
    (p : String × String) :
    (enumStep env st p).trace = st.trace ++ [p.2] := by
  unfold enumStep
  cases env p.2 with
  | errorIndication => rfl
  | errorStatus => rfl
  | exc => rfl
  | varBinds vs => exact innerFold_trace vs p.1 _

/-- One loop iteration sets `success` exactly when its OID returned a value. -/
theorem enumStep_success (env : String → GetOutcome) (st : EnumState)
    (p : String × String) :
    (enumStep env st p).success = (st.success || okNonempty (env p.2)) := by
  unfold enumStep
  cases env p.2 with
  | errorIndication => simp [okNonempty]
  | errorStatus => simp [okNonempty]
  | exc => simp [okNonempty]
  | varBinds vs =>
      cases vs with
      | nil => simp [okNonempty]
      | cons v rest => rw [innerFold_success]; simp [okNonempty]

/-- One loop iteration records its name exactly when its OID returned a
value. -/
theorem enumStep_hasKey (env : String → GetOutcome) (st : EnumState)
    (p : String × String) (k : String) :
    hasKey (enumStep env st p).results k =
      (hasKey st.results k || (p.1 == k && okNonempty (env p.2))) := by
  unfold enumStep
  cases env p.2 with
  | errorIndication => simp [okNonempty]
  | errorStatus => simp [okNonempty]
  | exc => simp [okNonempty]
  | varBinds vs =>
      cases vs with
      | nil => simp [okNonempty]
      | cons v rest => rw [innerFold_hasKey]; simp [okNonempty]

/-- The OID loop's trace is the OIDs of the table, in order, once each. -/
theorem loopFold_trace (env : String → GetOutcome) (l : List (String × String))
    (st : EnumState) :
    (l.foldl (enumStep env) st).trace = st.trace ++ l.map Prod.snd := by
  induction l generalizing st with
  | nil => simp
  | cons p rest ih =>
      rw [List.foldl_cons, ih, enumStep_trace]
      simp

/-- The OID loop succeeds exactly when some OID of the table returned a
value. -/
theorem loopFold_success (env : String → GetOutcome) (l : List (String × String))
    (st : EnumState) :
    (l.foldl (enumStep env) st).success =
      (st.success || l.any (fun p => okNonempty (env p.2))) := by
  induction l generalizing st with
  | nil => simp
  | cons p rest ih =>
      rw [List.foldl_cons, ih, enumStep_success]
      simp [Bool.or_assoc]

/-- The OID loop's results hold exactly the names whose OID returned a
value. -/
theorem loopFold_hasKey (env : String → GetOutcome) (l : List (String × String))
    (st : EnumState) (k : String) :
    hasKey (l.foldl (enumStep env) st).results k =
      (hasKey st.results k || l.any (fun p => p.1 == k && okNonempty (env p.2))) := by
  induction l generalizing st with
  | nil => simp
  | cons p rest ih =>
      rw [List.foldl_cons, ih, enumStep_hasKey]
      simp [Bool.or_assoc]

end SnmpEnum

/-- C4 witness: the amended claim at the concrete community `"public"`. -/
theorem C4_witness :
    SnmpEnum.buildPacket SnmpEnum.publicBytes =
      some ([0x30, 41, 0x02, 0x01, 0x00, 0x04, 6] ++ SnmpEnum.publicBytes ++
        SnmpEnum.suffixHex) ∧
    ((∃ pre, ([0x30, 41, 0x02, 0x01, 0x00, 0x04, 6] ++ SnmpEnum.publicBytes ++
        SnmpEnum.suffixHex) = pre ++ SnmpEnum.suffixHex) ∧
      SnmpEnum.parsePduTail SnmpEnum.suffixHex =
        some ⟨[0x0e, 0xb3, 0x76, 0xf4], [0], [0], [1, 3, 6, 1, 2, 1, 1, 5, 0],
          5, []⟩) :=
  ⟨by decide, C4_amended SnmpEnum.publicBytes _ (by decide)⟩

/-- C8 counterexample: with the library available, `sysDescr` returning the
single value `x` and every other OID failing, the detail string opens with a
fixed success header line, so it is not the bare newline-joined `name: value`
listing of the collected OIDs that the claim describes. -/
theorem C8_counterexample :
    (SnmpEnum.tryPysnmpEnum true
        (fun oid => if oid == "1.3.6.1.2.1.1.1.0" then SnmpEnum.GetOutcome.varBinds ["x"]
          else SnmpEnum.GetOutcome.errorIndication)).2 =
      "SNMPv1 enumeration succeeded:\nsysDescr: x" ∧
    ¬ (SnmpEnum.tryPysnmpEnum true
        (fun oid => if oid == "1.3.6.1.2.1.1.1.0" then SnmpEnum.GetOutcome.varBinds ["x"]
          else SnmpEnum.GetOutcome.errorIndication)).2 =
      SnmpEnum.specBareListing
        (SnmpEnum.pysnmpLoop
          (fun oid => if oid == "1.3.6.1.2.1.1.1.0" then SnmpEnum.GetOutcome.varBinds ["x"]
            else SnmpEnum.GetOutcome.errorIndication)).results := by
  decide

/-- C8 (amended): in `try_pysnmp_enum`, each of the six fixed MIB-II OIDs is
attempted exactly once, in table order; a per-OID error indication, error
status or exception skips that OID without aborting the loop; the returned
flag mirrors `success`, which is true iff at least one OID returned a value;
the collected results hold exactly the names whose OID returned a value; and
the detail string is the fixed success header followed by the newline-joined
`name: value` listing on success, else the fixed no-valid-responses
message. -/
theorem C8_amended (env : String → SnmpEnum.GetOutcome) :
    (SnmpEnum.pysnmpLoop env).trace = SnmpEnum.oidsList.map Prod.snd ∧
    (SnmpEnum.tryPysnmpEnum true env).1 = some (SnmpEnum.pysnmpLoop env).success ∧
    ((SnmpEnum.pysnmpLoop env).success = true ↔
      ∃ p ∈ SnmpEnum.oidsList, SnmpEnum.okNonempty (env p.2) = true) ∧
    (∀ name : String,
      SnmpEnum.hasKey (SnmpEnum.pysnmpLoop env).results name = true ↔
        ∃ p ∈ SnmpEnum.oidsList, p.1 = name ∧ SnmpEnum.okNonempty (env p.2) = true) ∧
    ((SnmpEnum.pysnmpLoop env).success = true →
      (SnmpEnum.tryPysnmpEnum true env).2 =
        "SNMPv1 enumeration succeeded:\n" ++
          SnmpEnum.specBareListing (SnmpEnum.pysnmpLoop env).results) ∧
    ((SnmpEnum.pysnmpLoop env).success = false →
      (SnmpEnum.tryPysnmpEnum true env).2 = "no valid responses for standard OIDs") := by
  refine ⟨?_, ?_, ?_, ?_, ?_, ?_⟩
  · rw [SnmpEnum.pysnmpLoop, SnmpEnum.loopFold_trace]
    rfl
  · cases hs : (SnmpEnum.pysnmpLoop env).success <;>
      simp [SnmpEnum.tryPysnmpEnum, hs]
  · rw [SnmpEnum.pysnmpLoop, SnmpEnum.loopFold_success]
    simp [List.any_eq_true]
  · intro name
    rw [SnmpEnum.pysnmpLoop, SnmpEnum.loopFold_hasKey]
    simp [SnmpEnum.hasKey, List.any_eq_true, Bool.and_eq_true, beq_iff_eq]
  · intro hs
    simp [SnmpEnum.tryPysnmpEnum, hs, SnmpEnum.specBareListing]
  · intro hs
    simp [SnmpEnum.tryPysnmpEnum, hs]

/-- C8 witness: the amended claim at the concrete environment in which only
`sysDescr` answers, with one value `x`. -/
theorem C8_witness :
    (SnmpEnum.pysnmpLoop
        (fun oid => if oid == "1.3.6.1.2.1.1.1.0" then SnmpEnum.GetOutcome.varBinds ["x"]
          else SnmpEnum.GetOutcome.errorIndication)).trace =
      SnmpEnum.oidsList.map Prod.snd ∧
    (SnmpEnum.tryPysnmpEnum true
        (fun oid => if oid == "1.3.6.1.2.1.1.1.0" then SnmpEnum.GetOutcome.varBinds ["x"]
          else SnmpEnum.GetOutcome.errorIndication)).2 =
      "SNMPv1 enumeration succeeded:\n" ++
        SnmpEnum.specBareListing
          (SnmpEnum.pysnmpLoop
            (fun oid => if oid == "1.3.6.1.2.1.1.1.0" then SnmpEnum.GetOutcome.varBinds ["x"]
              else SnmpEnum.GetOutcome.errorIndication)).results :=
  ⟨(C8_amended _).1, (C8_amended _).2.2.2.2.1 (by decide)⟩

namespace LdapCheck

/-- The key recorded by the root-DSE harvest step is always one of
`rootDSE`, `rootDSE_search_result`, `rootDSE_error`. -/
theorem rootDseStep_key (env : Env) :
    (rootDseStep env).1 = "rootDSE" ∨
    (rootDseStep env).1 = "rootDSE_search_result" ∨
    (rootDseStep env).1 = "rootDSE_error" := by
  unfold rootDseStep
  rcases hrs : env.rootSearch with e | b
  · right; right; rfl
  · cases b
    · right; left; rfl
    · rcases hh : env.entriesHead with e | u
      · right; right; rfl
      · rcases ha : env.entryAttrsDict with e | dd
        · left; rfl
        · left; rfl

/-- On an all-successful oracle path up to the bind, the probe returns
success with the three harvest steps' metadata and all three timings. -/
theorem tryAnonymousBind_success (host : String) (port : Nat)
    (useLdaps starttls : Bool) (env : Env) (d : Nat)
    (htcp : env.tcpConnect = .ok d)
    (hsrv : env.serverCreate = .ok ())
    (hconn : env.connCreate = .ok ())
    (hopen : env.connOpen = .ok true)
    (htls : startTlsStage useLdaps starttls env = .ok ())
    (hbind : env.bindCall = .ok true) :
    tryAnonymousBind host port useLdaps starttls env =
      { host := host, port := port, use_ldaps := useLdaps, starttls := starttls,
        success := true, error := none,
        metadata := [serverInfoStep env, rootDseStep env] ++
          sampleStep env [serverInfoStep env, rootDseStep env],
        timings := [("tcp_connect_s", d), ("bind_s", env.bindDur),
          ("total_s", env.totalDur)] } := by
  unfold tryAnonymousBind ldapBody
  rw [htcp, hsrv, hconn, hopen, htls, hbind]
  rfl

end LdapCheck

/-- C7: whenever the TCP connection attempt fails (refused, timeout, DNS —
any exception from `socket.create_connection`), the LDAP probe result has
`success=false`, a non-null error string containing (here: starting with)
"TCP connection failed", no `bind_s` key in its timings, and equals the
early-return record outright — no server construction, open or bind is
attempted, the result depending on no post-TCP oracle. -/
theorem C7_tcp_failure (host : String) (port : Nat) (useLdaps starttls : Bool)
    (env : LdapCheck.Env) (e : String) (h : env.tcpConnect = .exc e) :
    (LdapCheck.tryAnonymousBind host port useLdaps starttls env).success = false ∧
    (∃ s, (LdapCheck.tryAnonymousBind host port useLdaps starttls env).error =
      some ("TCP connection failed" ++ s)) ∧
    SnmpEnum.hasKey
      (LdapCheck.tryAnonymousBind host port useLdaps starttls env).timings
      "bind_s" = false ∧
    LdapCheck.tryAnonymousBind host port useLdaps starttls env =
      { host := host, port := port, use_ldaps := useLdaps, starttls := starttls,
        success := false, error := some ("TCP connection failed: " ++ e),
        metadata := [], timings := [("total_s", env.totalDur)] } := by
  have heq : LdapCheck.tryAnonymousBind host port useLdaps starttls env =
      { host := host, port := port, use_ldaps := useLdaps, starttls := starttls,
        success := false, error := some ("TCP connection failed: " ++ e),
        metadata := [], timings := [("total_s", env.totalDur)] } := by
    unfold LdapCheck.tryAnonymousBind
    rw [h]
  refine ⟨by rw [heq], ?_, by rw [heq]; rfl, heq⟩
  refine ⟨": " ++ e, ?_⟩
  rw [heq]
  show some ("TCP connection failed: " ++ e) = _
  rw [show ("TCP connection failed: " : String) =
        "TCP connection failed" ++ ": " from rfl,
      String.append_assoc]

/-- C7 witness: the TCP-failure claim at a concrete refused connection. -/
theorem C7_witness :
    ({ LdapCheck.sampleEnv with
        tcpConnect := .exc "[Errno 111] Connection refused" } :
      LdapCheck.Env).tcpConnect = .exc "[Errno 111] Connection refused" ∧
    ((LdapCheck.tryAnonymousBind "ldap.example.com" 389 false false
        { LdapCheck.sampleEnv with
          tcpConnect := .exc "[Errno 111] Connection refused" }).success = false ∧
     (∃ s, (LdapCheck.tryAnonymousBind "ldap.example.com" 389 false false
        { LdapCheck.sampleEnv with
          tcpConnect := .exc "[Errno 111] Connection refused" }).error =
        some ("TCP connection failed" ++ s)) ∧
     SnmpEnum.hasKey
       (LdapCheck.tryAnonymousBind "ldap.example.com" 389 false false
         { LdapCheck.sampleEnv with
           tcpConnect := .exc "[Errno 111] Connection refused" }).timings
       "bind_s" = false ∧
     LdapCheck.tryAnonymousBind "ldap.example.com" 389 false false
        { LdapCheck.sampleEnv with
          tcpConnect := .exc "[Errno 111] Connection refused" } =
       { host := "ldap.example.com", port := 389, use_ldaps := false,
         starttls := false, success := false,
         error := some ("TCP connection failed: " ++
           "[Errno 111] Connection refused"),
         metadata := [], timings := [("total_s", 3)] }) :=
  ⟨rfl, C7_tcp_failure "ldap.example.com" 389 false false
    { LdapCheck.sampleEnv with
      tcpConnect := .exc "[Errno 111] Connection refused" }
    "[Errno 111] Connection refused" rfl⟩

/-- C10: on every return path of `try_anonymous_bind` — TCP failure, server
construction failure, exception during LDAP operations, refused bind, and
successful bind — the returned timings mapping contains the key `total_s`. -/
theorem C10_total_s (host : String) (port : Nat) (useLdaps starttls : Bool)
    (env : LdapCheck.Env) :
    SnmpEnum.hasKey
      (LdapCheck.tryAnonymousBind host port useLdaps starttls env).timings
      "total_s" = true := by
  unfold LdapCheck.tryAnonymousBind
  rcases htcp : env.tcpConnect with e | d
  · rfl
  · rcases hsrv : env.serverCreate with e | u
    · rfl
    · rcases hbody : LdapCheck.ldapBody useLdaps starttls env with e | r
      · rfl
      · obtain ⟨succ, err, md⟩ := r
        rfl

/-- C2: whenever both `starttls` and `use_ldaps` are requested, `main`
outputs the configuration-error JSON before `try_anonymous_bind` is called:
for every network environment the output is one and the same error object,
so no socket is opened and the output records no TCP-connect timing (it
carries no timings at all). -/
theorem C2_mutual_exclusion (args : LdapCheck.Args) (env : LdapCheck.Env)
    (hs : args.starttls = true) (hl : args.useLdaps = true) :
    LdapCheck.mainFlow args env =
      .configError (.vdict [("error",
        .vstr "Cannot use both --starttls and --use-ldaps")]) := by
  unfold LdapCheck.mainFlow
  rw [hs, hl]
  rfl

/-- C2 witness: the guard at the concrete invocation
`--host ldap.example.com --use-ldaps --starttls`. -/
theorem C2_witness :
    (LdapCheck.Args.mk "ldap.example.com" none true true false).starttls = true ∧
    (LdapCheck.Args.mk "ldap.example.com" none true true false).useLdaps = true ∧
    LdapCheck.mainFlow (LdapCheck.Args.mk "ldap.example.com" none true true false)
        LdapCheck.sampleEnv =
      .configError (.vdict [("error",
        .vstr "Cannot use both --starttls and --use-ldaps")]) :=
  ⟨rfl, rfl, C2_mutual_exclusion _ LdapCheck.sampleEnv rfl rfl⟩

/-- C3 counterexample: bind succeeds but the root-DSE search raises (here
`"socket closed"`), so the metadata holds only `rootDSE_error` — the result
has `success=true` yet neither `rootDSE` nor `rootDSE_search_result` is
present, contradicting the claim's "never neither". -/
theorem C3_counterexample :
    (LdapCheck.tryAnonymousBind "ldap.example.com" 389 false false
        { LdapCheck.sampleEnv with rootSearch := .exc "socket closed" }).success =
      true ∧
    SnmpEnum.hasKey
      (LdapCheck.tryAnonymousBind "ldap.example.com" 389 false false
        { LdapCheck.sampleEnv with rootSearch := .exc "socket closed" }).metadata
      "rootDSE" = false ∧
    SnmpEnum.hasKey
      (LdapCheck.tryAnonymousBind "ldap.example.com" 389 false false
        { LdapCheck.sampleEnv with rootSearch := .exc "socket closed" }).metadata
      "rootDSE_search_result" = false ∧
    SnmpEnum.hasKey
      (LdapCheck.tryAnonymousBind "ldap.example.com" 389 false false
        { LdapCheck.sampleEnv with rootSearch := .exc "socket closed" }).metadata
      "rootDSE_error" = true := by
  decide

/-- C3 (amended): on every path on which the anonymous bind succeeds, the
result has `success=true` and its metadata contains `rootDSE`,
`rootDSE_search_result`, or `rootDSE_error` — the third arising exactly when
the root-DSE step raised, the case the original claim leaves out. -/
theorem C3_amended (host : String) (port : Nat) (useLdaps starttls : Bool)
    (env : LdapCheck.Env) (d : Nat)
    (htcp : env.tcpConnect = .ok d)
    (hsrv : env.serverCreate = .ok ())
    (hconn : env.connCreate = .ok ())
    (hopen : env.connOpen = .ok true)
    (htls : LdapCheck.startTlsStage useLdaps starttls env = .ok ())
    (hbind : env.bindCall = .ok true) :
    (LdapCheck.tryAnonymousBind host port useLdaps starttls env).success = true ∧
    (SnmpEnum.hasKey
        (LdapCheck.tryAnonymousBind host port useLdaps starttls env).metadata
        "rootDSE" ||
     SnmpEnum.hasKey
        (LdapCheck.tryAnonymousBind host port useLdaps starttls env).metadata
        "rootDSE_search_result" ||
     SnmpEnum.hasKey
        (LdapCheck.tryAnonymousBind host port useLdaps starttls env).metadata
        "rootDSE_error") = true := by
  rw [LdapCheck.tryAnonymousBind_success host port useLdaps starttls env d
    htcp hsrv hconn hopen htls hbind]
  refine ⟨rfl, ?_⟩
  rcases LdapCheck.rootDseStep_key env with hk | hk | hk <;>
    simp [SnmpEnum.hasKey, hk]

/-- C3 witness: the amended claim at the all-cooperative fixture
environment, whose root-DSE search returns an entry. -/
theorem C3_witness :
    LdapCheck.sampleEnv.tcpConnect = .ok 1 ∧
    LdapCheck.sampleEnv.serverCreate = .ok () ∧
    LdapCheck.sampleEnv.connCreate = .ok () ∧
    LdapCheck.sampleEnv.connOpen = .ok true ∧
    LdapCheck.startTlsStage false false LdapCheck.sampleEnv = .ok () ∧
    LdapCheck.sampleEnv.bindCall = .ok true ∧
    ((LdapCheck.tryAnonymousBind "ldap.example.com" 389 false false
        LdapCheck.sampleEnv).success = true ∧
     (SnmpEnum.hasKey
        (LdapCheck.tryAnonymousBind "ldap.example.com" 389 false false
          LdapCheck.sampleEnv).metadata "rootDSE" ||
      SnmpEnum.hasKey
        (LdapCheck.tryAnonymousBind "ldap.example.com" 389 false false
          LdapCheck.sampleEnv).metadata "rootDSE_search_result" ||
      SnmpEnum.hasKey
        (LdapCheck.tryAnonymousBind "ldap.example.com" 389 false false
          LdapCheck.sampleEnv).metadata "rootDSE_error") = true) :=
  ⟨rfl, rfl, rfl, rfl, rfl, rfl,
    C3_amended "ldap.example.com" 389 false false LdapCheck.sampleEnv 1
      rfl rfl rfl rfl rfl rfl⟩
